import Mathlib

/-!
Verification development for the colorvision-test-creator repository.

The repository generates dot-pattern (Ishihara-style) images: text is rendered
to a canvas, converted to a boolean luminance mask, and a randomized
circle-packing loop fills the canvas with non-overlapping colored circles whose
color is chosen by sampling the mask.

Shallow embedding conventions:
* JavaScript numbers are modelled as exact rationals (`ℚ`); the square-root
  comparisons of `circle-placer.js` are embedded by the equivalent squared
  comparisons (`sqrt d < s ↔ 0 < s ∧ d < s^2` for `0 ≤ d`), so that every
  definition stays computable; theorems about Euclidean distances are stated
  over `ℝ` via `Real.sqrt`.
* The pseudo-random draws of the packing loop (`Math.random()`) are supplied
  as an explicit input list of proposals, one per loop iteration: the
  candidate position produced by `CirclePlacer.generateRandomPosition`
  (which depends only on the constraints, never on the evolving state) and
  the raw uniform draw used for the radius.
* The luminance map (a JS 2D boolean array) is modelled as a function
  `ℤ → ℤ → Bool` (row, column), read only at indices that pass the bounds
  check of `determineCircleColor`, exactly as in the source.
-/

namespace ColorVision

/-- A placed circle, `{x, y, radius, color}` as pushed by
`ColorVisionGenerator._generateCircles`. -/
structure Circle where
  x : ℚ
  y : ℚ
  radius : ℚ
  color : String
  deriving Repr, DecidableEq

/-- The `constraints` record built in `_generateCircles`:
`{ width, height, margin, circular, centerX, centerY, padding }`. -/
structure Constraints where
  width : ℚ
  height : ℚ
  margin : ℚ
  circular : Bool
  centerX : ℚ
  centerY : ℚ
  padding : ℚ
  deriving Repr, DecidableEq

/-- The `colorOptions` record built in `_generateCircles`:
`{ tolerance, onColor, offColor, mapWidth, mapHeight }`. -/
structure ColorOptions where
  tolerance : ℚ
  onColor : String
  offColor : String
  mapWidth : ℕ
  mapHeight : ℕ
  deriving Repr, DecidableEq

/-- `Real.sqrt d < s`, decided on rationals: for `0 ≤ d` this holds iff
`0 < s ∧ d < s^2`.  Embeds the overlap comparison
`Math.sqrt(dx*dx + dy*dy) < radius + circle.radius + padding`. -/
def sqrtLtB (d s : ℚ) : Bool :=
  decide (0 < s ∧ d < s ^ 2)

/-- `Real.sqrt d > t`, decided on rationals: for `0 ≤ d` this holds iff
`t < 0 ∨ t^2 < d`.  Embeds the circular-boundary comparison
`distanceFromCenter + radius > circleRadius`, rearranged as
`sqrt d > circleRadius - radius`. -/
def sqrtGtB (d t : ℚ) : Bool :=
  decide (t < 0 ∨ t ^ 2 < d)

/-- `CirclePlacer.isValidPlacement` (src/utils/circle-placer.js): canvas-bounds
check with margin, circular-boundary check, then overlap check against every
existing circle.  The early-`return false` chain of the source is written as a
conjunction. -/
def isValidPlacement (x y radius : ℚ) (existingCircles : List Circle)
    (constraints : Constraints) : Bool :=
  !(decide (x - radius < constraints.margin) ||
    decide (x + radius > constraints.width - constraints.margin) ||
    decide (y - radius < constraints.margin) ||
    decide (y + radius > constraints.height - constraints.margin)) &&
  !(constraints.circular &&
    sqrtGtB ((x - constraints.centerX) ^ 2 + (y - constraints.centerY) ^ 2)
      (min constraints.width constraints.height / 2 - constraints.margin - radius)) &&
  existingCircles.all fun circle =>
    ! sqrtLtB ((x - circle.x) ^ 2 + (y - circle.y) ^ 2)
      (radius + circle.radius + constraints.padding)

/-- The sample offsets of `determineCircleColor`:
`for (let dy = -radius; dy <= radius; dy += radius / samples)` with
`samples = Math.max(8, radius)`.  In exact rational arithmetic the loop
visits `-radius + k * (radius / samples)` for `k = 0, …, ⌊2 * samples⌋`;
this list is that sequence.  (The source loop is total only for
`radius > 0`, which the generator guarantees via `minRadius`.) -/
def sampleOffsets (radius : ℚ) : List ℚ :=
  let samples : ℚ := max 8 radius
  (List.range (⌊2 * samples⌋₊ + 1)).map fun k => -radius + k * (radius / samples)

/-- The sampling pass of `CirclePlacer.determineCircleColor`: counts
`(inPixels, totalPixels)` over the grid samples that fall inside the disk
(`dx*dx + dy*dy <= radius*radius`) and inside the map bounds, reading the
mask at the floored coordinates. -/
def countSamples (x y radius : ℚ) (luminanceMap : ℤ → ℤ → Bool)
    (mapWidth mapHeight : ℕ) : ℕ × ℕ :=
  (sampleOffsets radius).foldl
    (fun acc dy =>
      (sampleOffsets radius).foldl
        (fun acc dx =>
          if dx * dx + dy * dy ≤ radius * radius then
            let px : ℤ := ⌊x + dx⌋
            let py : ℤ := ⌊y + dy⌋
            if 0 ≤ px ∧ px < (mapWidth : ℤ) ∧ 0 ≤ py ∧ py < (mapHeight : ℤ) then
              (if luminanceMap py px then acc.1 + 1 else acc.1, acc.2 + 1)
            else acc
          else acc)
        acc)
    (0, 0)

/-- `CirclePlacer.determineCircleColor`: rejects (`none`) when no sample was
counted or when the in-foreground ratio lies strictly inside the tolerance
band, otherwise returns `onColor` for ratio `> 0.5` and `offColor` otherwise. -/
def determineCircleColor (x y radius : ℚ) (luminanceMap : ℤ → ℤ → Bool)
    (options : ColorOptions) : Option String :=
  let counts := countSamples x y radius luminanceMap options.mapWidth options.mapHeight
  if counts.2 = 0 then none
  else
    let inRatio : ℚ := (counts.1 : ℚ) / (counts.2 : ℚ)
    if options.tolerance < inRatio ∧ inRatio < 1 - options.tolerance then none
    else some (if inRatio > 1/2 then options.onColor else options.offColor)

/-- One loop iteration's random draws: the candidate position `(x, y)`
returned by `CirclePlacer.generateRandomPosition` (a state-independent
function of the constraints and the RNG) and the raw uniform draw `r` used
for `radius = minRadius + r * (currentMaxRadius - minRadius)`. -/
structure Proposal where
  x : ℚ
  y : ℚ
  r : ℚ
  deriving Repr, DecidableEq

/-- The mutable state of `_generateCircles`: the circle list, the `attempts`
counter, the shrinking `currentMaxRadius`, and the number of loop iterations
executed so far (implicit in the source; tracked here to reason about the
loop bound). -/
structure PackState where
  circles : List Circle
  attempts : ℕ
  currentMaxRadius : ℚ
  iterations : ℕ
  deriving Repr, DecidableEq

/-- Initial state of `_generateCircles`:
`circles = []`, `attempts = 0`, `currentMaxRadius = maxRadius`. -/
def initState (maxRadius : ℚ) : PackState :=
  { circles := [], attempts := 0, currentMaxRadius := maxRadius, iterations := 0 }

/-- The placement part of the loop body of `_generateCircles`: compute the
radius from the raw draw, validate, classify, and either append the circle
and reset `attempts` to `0` or increment `attempts`. -/
def placeAttempt (constraints : Constraints) (colorOptions : ColorOptions)
    (luminanceMap : ℤ → ℤ → Bool) (minRadius : ℚ) (p : Proposal)
    (s : PackState) : PackState :=
  let radius := minRadius + p.r * (s.currentMaxRadius - minRadius)
  if isValidPlacement p.x p.y radius s.circles constraints then
    match determineCircleColor p.x p.y radius luminanceMap colorOptions with
    | some color =>
        { s with circles := s.circles ++ [⟨p.x, p.y, radius, color⟩], attempts := 0 }
    | none => { s with attempts := s.attempts + 1 }
  else { s with attempts := s.attempts + 1 }

/-- The annealing step at the end of the loop body:
`if (attempts > 1000 && currentMaxRadius > minRadius + 1)` then
`currentMaxRadius *= 0.98; attempts = 0`. -/
def anneal (minRadius : ℚ) (s : PackState) : PackState :=
  if 1000 < s.attempts ∧ minRadius + 1 < s.currentMaxRadius then
    { s with currentMaxRadius := s.currentMaxRadius * (49/50), attempts := 0 }
  else s

/-- One full iteration of the `while` body of `_generateCircles`. -/
def packStep (constraints : Constraints) (colorOptions : ColorOptions)
    (luminanceMap : ℤ → ℤ → Bool) (minRadius : ℚ) (p : Proposal)
    (s : PackState) : PackState :=
  anneal minRadius (placeAttempt constraints colorOptions luminanceMap minRadius p s)

/-- The `while (attempts < maxAttempts)` loop of `_generateCircles`, driven by
the explicit list of random proposals (one consumed per iteration).  The run
stops when the `attempts` counter reaches `maxAttempts`, or when the supplied
randomness is exhausted (an incomplete run). -/
def runPack (constraints : Constraints) (colorOptions : ColorOptions)
    (luminanceMap : ℤ → ℤ → Bool) (minRadius : ℚ) (maxAttempts : ℕ) :
    List Proposal → PackState → PackState
  | [], s => s
  | p :: ps, s =>
      if s.attempts < maxAttempts then
        runPack constraints colorOptions luminanceMap minRadius maxAttempts ps
          { packStep constraints colorOptions luminanceMap minRadius p s with
              iterations := s.iterations + 1 }
      else s

/-- The packing engine `pack` of the spec: run `_generateCircles` from the
initial state. -/
def packResult (constraints : Constraints) (colorOptions : ColorOptions)
    (luminanceMap : ℤ → ℤ → Bool) (minRadius maxRadius : ℚ) (maxAttempts : ℕ)
    (ps : List Proposal) : PackState :=
  runPack constraints colorOptions luminanceMap minRadius maxAttempts ps
    (initState maxRadius)

/-! ### Luminance classifier (src/utils/luminance.js, canvas-utils.js)

The source computes with floating point; it is modelled here over the exact
reals, so the definitions below are noncomputable (`Math.pow(·, 2.4)` is
`Real.rpow`). -/

/-- The inner helper of `getLuminance` (src/utils/luminance.js):
`sRGBtoLin(channel) = channel / 12.92` for `channel <= 0.04045`, else
`((channel + 0.055) / 1.055) ** 2.4`. -/
noncomputable def sRGBtoLin (channel : ℝ) : ℝ :=
  if channel ≤ 0.04045 then channel / 12.92
  else ((channel + 0.055) / 1.055) ^ (2.4 : ℝ)

/-- `getLuminance(r, g, b)` (src/utils/luminance.js): 8-bit channels scaled
to `[0,1]`, linearized, then combined with the BT.709 coefficients. -/
noncomputable def getLuminance (r g b : ℕ) : ℝ :=
  let vR : ℝ := (r : ℝ) / 255
  let vG : ℝ := (g : ℝ) / 255
  let vB : ℝ := (b : ℝ) / 255
  0.2126 * sRGBtoLin vR + 0.7152 * sRGBtoLin vG + 0.0722 * sRGBtoLin vB

/-- One entry of the mask built by `CanvasUtils.createLuminanceMap`
(src/utils/canvas-utils.js): from an RGBA byte buffer `data` of a canvas of
pixel width `width`, the mask at row `y`, column `x` is
`getLuminance(r, g, b) < luminanceThreshold` with the channels read at
`idx = (y * width + x) * 4`. -/
def luminanceMapVal (data : ℕ → ℕ) (width : ℕ) (luminanceThreshold : ℝ)
    (y x : ℕ) : Prop :=
  getLuminance (data ((y * width + x) * 4)) (data ((y * width + x) * 4 + 1))
    (data ((y * width + x) * 4 + 2)) < luminanceThreshold

/-- Reference definition written from the spec's words (§4.1), for the C6
refinement comparison: the sRGB-to-linear transfer function
`c/12.92` for `c ≤ 0.04045`, else `((c+0.055)/1.055)^2.4`. -/
noncomputable def sRGBtoLinRef (c : ℝ) : ℝ :=
  if c ≤ 0.04045 then c / 12.92
  else ((c + 0.055) / 1.055) ^ (2.4 : ℝ)

/-- Reference definition written from the spec's words (§4.1), for the C6
refinement comparison:
`Y = 0.2126·lin(r/255) + 0.7152·lin(g/255) + 0.0722·lin(b/255)`. -/
noncomputable def luminanceRefY (r g b : ℕ) : ℝ :=
  0.2126 * sRGBtoLinRef ((r : ℝ) / 255) + 0.7152 * sRGBtoLinRef ((g : ℝ) / 255) +
    0.0722 * sRGBtoLinRef ((b : ℝ) / 255)

/-! ### Text layout fitter (src/utils/text-processor.js)

`TextProcessor.calculateOptimalFontSize` measures the rendered text with the
external canvas rasterizer; the pair `(textWidth, textHeight)` it computes at
each candidate size (widest-word width and stacked line height for multi-word
text, glyph metrics with fallbacks for a single word) is abstracted as a
measurement oracle `measure : ℚ → ℚ × ℚ`, exactly the interface boundary the
spec draws in §4.2. -/

/-- `TextProcessor.calculateOptimalFontSize`: the do/while shrink loop.
Measure at the candidate size; stop if both dimensions fit; otherwise
multiply the size by `0.95` and continue while the size is still above the
floor of `20`. -/
def calculateOptimalFontSize (measure : ℚ → ℚ × ℚ) (maxWidth maxHeight : ℚ)
    (adjustedFontSize : ℚ) : ℚ :=
  let m := measure adjustedFontSize
  if m.1 ≤ maxWidth ∧ m.2 ≤ maxHeight then adjustedFontSize
  else if h : 20 < adjustedFontSize * (19/20) then
    calculateOptimalFontSize measure maxWidth maxHeight (adjustedFontSize * (19/20))
  else adjustedFontSize * (19/20)
termination_by Nat.ceil adjustedFontSize
decreasing_by
  have h0 : (0 : ℚ) ≤ adjustedFontSize * (19/20) := le_of_lt (lt_trans (by norm_num) h)
  have h1 : ((Nat.ceil (adjustedFontSize * (19/20)) : ℕ) : ℚ) <
      adjustedFontSize * (19/20) + 1 := Nat.ceil_lt_add_one h0
  have h2 : adjustedFontSize * (19/20) + 1 ≤ adjustedFontSize := by linarith
  exact Nat.lt_ceil.mpr (lt_of_lt_of_le h1 h2)

/-! ### Color palettes (src/utils/color-palettes.js) -/

/-- One palette record of `COLOR_PALETTES`. -/
structure Palette where
  name : String
  description : String
  onColor : String
  offColor : String
  targetDeficiency : String
  deriving Repr, DecidableEq

/-- The `COLOR_PALETTES` catalog (src/utils/color-palettes.js), as the list of
its own (lowercase) keys and records. -/
def COLOR_PALETTES : List (String × Palette) :=
  [("default",
    ⟨"Default Orange/Cyan", "Good general contrast for most color vision types",
      "#FF6B35", "#4ECDC4", "general"⟩),
   ("protanopia",
    ⟨"Protanopia (Red-blind) Test", "Optimized for testing red color blindness",
      "#8B0000", "#90EE90", "protanopia"⟩),
   ("deuteranopia",
    ⟨"Deuteranopia (Green-blind) Test", "Optimized for testing green color blindness",
      "#D2691E", "#6B8E23", "deuteranopia"⟩),
   ("tritanopia",
    ⟨"Tritanopia (Blue-blind) Test", "Optimized for testing blue color blindness",
      "#FFD700", "#4169E1", "tritanopia"⟩),
   ("high-contrast-red",
    ⟨"High Contrast Red/Green", "Maximum contrast red/green combination",
      "#B22222", "#32CD32", "red-green"⟩),
   ("high-contrast-blue",
    ⟨"High Contrast Blue/Yellow", "Maximum contrast blue/yellow combination",
      "#000080", "#FFFF00", "blue-yellow"⟩),
   ("subtle-red-green",
    ⟨"Subtle Red/Green", "Subtle red-green difference for mild deficiencies",
      "#CD5C5C", "#228B22", "mild-red-green"⟩),
   ("subtle-brown-green",
    ⟨"Subtle Brown/Green", "Brown-green combination often confused by color blind individuals",
      "#A0522D", "#556B2F", "brown-green-confusion"⟩),
   ("monochrome",
    ⟨"Monochrome Compatible", "High luminance contrast for monochromacy",
      "#2F2F2F", "#D3D3D3", "monochromacy"⟩),
   ("scientific-red",
    ⟨"Scientific Red Standard", "Standard red used in color vision research",
      "#FF0000", "#00FF00", "research-standard"⟩),
   ("ishihara-classic",
    ⟨"Classic Ishihara Colors", "Colors inspired by traditional Ishihara plates",
      "#8B4513", "#9ACD32", "classic-test"⟩)]

/-- Result of the JavaScript bracket lookup `COLOR_PALETTES[key]`: an own
catalog entry (a palette record), a property inherited from
`Object.prototype` (a truthy function or object that is not a palette:
reading `.onColor` / `.offColor` on it yields `undefined`), or `undefined`
for an absent key.  `getPalette`'s `|| null` maps the absent case to
`null`; `null` and `undefined` are both falsy and indistinguishable
downstream, so both are `nullish` here. -/
inductive JsLookupResult where
  | palette (pal : Palette)
  | protoMember
  | nullish
  deriving Repr, DecidableEq

/-- The property names every plain JavaScript object literal inherits from
`Object.prototype`, hit by a bracket lookup when no own key matches (the
catalog object is a plain literal, so its prototype is `Object.prototype`). -/
def OBJECT_PROTOTYPE_MEMBERS : List String :=
  ["constructor", "hasOwnProperty", "isPrototypeOf", "propertyIsEnumerable",
   "toLocaleString", "toString", "valueOf", "__defineGetter__",
   "__defineSetter__", "__lookupGetter__", "__lookupSetter__", "__proto__"]

/-- The JavaScript bracket lookup `COLOR_PALETTES[key]`: own keys first,
then the members inherited from `Object.prototype` (property names are
case-sensitive, so after `toLowerCase` only the all-lowercase inherited
names `constructor` and `__proto__` remain reachable). -/
def objectBracket (key : String) : JsLookupResult :=
  match COLOR_PALETTES.lookup key with
  | some pal => JsLookupResult.palette pal
  | none =>
      if key ∈ OBJECT_PROTOTYPE_MEMBERS then JsLookupResult.protoMember
      else JsLookupResult.nullish

/-- `getPalette(paletteName)` (src/utils/color-palettes.js):
`COLOR_PALETTES[paletteName.toLowerCase()] || null`. -/
def getPalette (paletteName : String) : JsLookupResult :=
  objectBracket paletteName.toLower

/-- `isValidPalette(paletteName)` (src/utils/color-palettes.js):
`COLOR_PALETTES.hasOwnProperty(paletteName.toLowerCase())`;
`hasOwnProperty` consults only own keys, never the prototype chain. -/
def isValidPalette (paletteName : String) : Bool :=
  (COLOR_PALETTES.lookup paletteName.toLower).isSome

/-- The generator's option record (`DEFAULT_OPTIONS` merged with user
overrides, src/colorvision-generator.js).  `palette = none` models the
default `null`. -/
structure GeneratorOptions where
  width : ℚ
  height : ℚ
  minRadius : ℚ
  maxRadius : ℚ
  onColor : String
  offColor : String
  luminanceThreshold : ℚ
  tolerance : ℚ
  padding : ℚ
  maxAttempts : ℕ
  fontSize : ℚ
  fontFamily : String
  textColor : String
  backgroundColor : String
  margin : ℚ
  circular : Bool
  circularBackgroundColor : String
  maxTextFit : Bool
  palette : Option String
  format : String
  transparent : Bool
  deriving Repr, DecidableEq

/-- `DEFAULT_OPTIONS` of src/colorvision-generator.js. -/
def DEFAULT_OPTIONS : GeneratorOptions :=
  { width := 800, height := 800, minRadius := 3, maxRadius := 20,
    onColor := "#FF6B35", offColor := "#4ECDC4",
    luminanceThreshold := 1/2, tolerance := 1/10, padding := 0,
    maxAttempts := 10000, fontSize := 300, fontFamily := "Arial, sans-serif",
    textColor := "#000000", backgroundColor := "#FFFFFF", margin := 50,
    circular := false, circularBackgroundColor := "#F5F5F5",
    maxTextFit := false, palette := none, format := "png", transparent := false }

/-- The palette step of the `ColorVisionGenerator` constructor: when
`options.palette` is truthy (non-null, non-empty), look it up with
`getPalette`; whenever the lookup result is truthy the constructor assigns
`palette.onColor` / `palette.offColor` to both colors — for an inherited
`Object.prototype` member those property reads yield `undefined` — and
otherwise it only warns.  Returns the `(onColor, offColor)` pair of the
constructed generator, `none` modelling `undefined`. -/
def applyPalette (options : GeneratorOptions) : Option String × Option String :=
  match options.palette with
  | none => (some options.onColor, some options.offColor)
  | some paletteName =>
      if paletteName = "" then (some options.onColor, some options.offColor)
      else
        match getPalette paletteName with
        | JsLookupResult.palette pal => (some pal.onColor, some pal.offColor)
        | JsLookupResult.protoMember => (none, none)
        | JsLookupResult.nullish => (some options.onColor, some options.offColor)

/-! ### Concrete runs used by the witnesses and counterexamples -/

/-- A uniformly background (all-`false`) luminance mask. -/
def allFalseMask : ℤ → ℤ → Bool := fun _ _ => false

/-- Rectangular 100×100 constraints with margin 10 and no padding. -/
def wConstraints : Constraints :=
  { width := 100, height := 100, margin := 10, circular := false,
    centerX := 50, centerY := 50, padding := 0 }

/-- Circular 100×100 constraints with margin 10 (inscribed radius 40). -/
def wCircConstraints : Constraints :=
  { width := 100, height := 100, margin := 10, circular := true,
    centerX := 50, centerY := 50, padding := 0 }

/-- Color options matching `wConstraints` with the default tolerance and
colors. -/
def wColorOptions : ColorOptions :=
  { tolerance := 1/10, onColor := "#FF6B35", offColor := "#4ECDC4",
    mapWidth := 100, mapHeight := 100 }

/-- Three proposals: two accepted placements, then one failing the bounds
check; with `maxAttempts = 1` the run finishes after the failure. -/
def wProposals : List Proposal := [⟨30, 30, 0⟩, ⟨70, 70, 0⟩, ⟨0, 0, 0⟩]

/-- The finished rectangular run: `minRadius = maxRadius = 8`,
`maxAttempts = 1`, all-background mask. -/
def wRun : PackState :=
  packResult wConstraints wColorOptions allFalseMask 8 8 1 wProposals

/-- An accepted circular placement at the center, then a failing proposal. -/
def wCircProposals : List Proposal := [⟨50, 50, 0⟩, ⟨0, 0, 0⟩]

/-- The finished circular run. -/
def wCircRun : PackState :=
  packResult wCircConstraints wColorOptions allFalseMask 8 8 1 wCircProposals

/-- A mask that is foreground exactly on the columns `px < 8` plus the first
eight rows of column `8`: at center `(8,8)` with radius `8` and map bounds
`17 × 16` this yields `inPixels = 98` of `totalPixels = 196`, an exact
sample ratio of `1/2`. -/
def halfMask : ℤ → ℤ → Bool :=
  fun py px => decide (px < 8 ∨ (px = 8 ∧ py < 8))

/-- Color options with `tolerance = 1/2` (empty rejection band) over the
`17 × 16` map of `halfMask`. -/
def halfColorOptions : ColorOptions :=
  { tolerance := 1/2, onColor := "#FF6B35", offColor := "#4ECDC4",
    mapWidth := 17, mapHeight := 16 }

/-! ### Invariant predicates (rational forms of the distance facts) -/

/-- Rational form of the non-overlap separation between two placed circles:
either the required separation `a.radius + b.radius + padding` is
non-positive (in which case any Euclidean distance satisfies it), or its
square is at most the squared center distance.  Equivalent to
`distance(a,b) ≥ a.radius + b.radius + padding` over `ℝ`. -/
def Separated (padding : ℚ) (a b : Circle) : Prop :=
  a.radius + b.radius + padding ≤ 0 ∨
    (a.radius + b.radius + padding) ^ 2 ≤ (a.x - b.x) ^ 2 + (a.y - b.y) ^ 2

/-- Rational form of the bounds invariant for a placed circle: the bounding
box lies inside the margin-adjusted canvas, and in circular mode the squared
center distance is at most the square of `inscribedRadius - radius`
(equivalently `distanceFromCenter + radius ≤ inscribedRadius` over `ℝ`). -/
def InBoundsQ (cons : Constraints) (c : Circle) : Prop :=
  cons.margin ≤ c.x - c.radius ∧ c.x + c.radius ≤ cons.width - cons.margin ∧
    cons.margin ≤ c.y - c.radius ∧ c.y + c.radius ≤ cons.height - cons.margin ∧
    (cons.circular = true →
      0 ≤ min cons.width cons.height / 2 - cons.margin - c.radius ∧
        (c.x - cons.centerX) ^ 2 + (c.y - cons.centerY) ^ 2 ≤
          (min cons.width cons.height / 2 - cons.margin - c.radius) ^ 2)

end ColorVision

namespace ColorVision

/-! ## Theorems -/

theorem of_sqrtLtB_eq_false {d s : ℚ} (h : sqrtLtB d s = false) :
    s ≤ 0 ∨ s ^ 2 ≤ d := by
  unfold sqrtLtB at h
  rw [decide_eq_false_iff_not] at h
  rcases le_or_lt s 0 with h1 | h1
  · exact Or.inl h1
  · refine Or.inr ?_
    by_contra h2
    exact h ⟨h1, not_le.mp h2⟩

theorem of_sqrtGtB_eq_false {d t : ℚ} (h : sqrtGtB d t = false) :
    0 ≤ t ∧ d ≤ t ^ 2 := by
  unfold sqrtGtB at h
  rw [decide_eq_false_iff_not] at h
  rw [not_or] at h
  exact ⟨not_lt.mp h.1, not_lt.mp h.2⟩

theorem isValidPlacement_bounds {x y radius : ℚ} {circles : List Circle}
    {cons : Constraints} (h : isValidPlacement x y radius circles cons = true) :
    cons.margin ≤ x - radius ∧ x + radius ≤ cons.width - cons.margin ∧
      cons.margin ≤ y - radius ∧ y + radius ≤ cons.height - cons.margin := by
  unfold isValidPlacement at h
  simp only [Bool.and_eq_true, Bool.not_eq_true', Bool.or_eq_false_iff,
    decide_eq_false_iff_not, not_lt] at h
  exact ⟨h.1.1.1.1.1, h.1.1.1.1.2, h.1.1.1.2, h.1.1.2⟩

theorem isValidPlacement_circular {x y radius : ℚ} {circles : List Circle}
    {cons : Constraints} (h : isValidPlacement x y radius circles cons = true)
    (hc : cons.circular = true) :
    0 ≤ min cons.width cons.height / 2 - cons.margin - radius ∧
      (x - cons.centerX) ^ 2 + (y - cons.centerY) ^ 2 ≤
        (min cons.width cons.height / 2 - cons.margin - radius) ^ 2 := by
  unfold isValidPlacement at h
  simp only [Bool.and_eq_true, Bool.not_eq_true'] at h
  have h2 := h.1.2
  rw [hc, Bool.true_and] at h2
  exact of_sqrtGtB_eq_false h2

theorem isValidPlacement_overlap {x y radius : ℚ} {circles : List Circle}
    {cons : Constraints} (h : isValidPlacement x y radius circles cons = true) :
    ∀ c ∈ circles,
      radius + c.radius + cons.padding ≤ 0 ∨
        (radius + c.radius + cons.padding) ^ 2 ≤ (x - c.x) ^ 2 + (y - c.y) ^ 2 := by
  intro c hc
  unfold isValidPlacement at h
  simp only [Bool.and_eq_true, List.all_eq_true, Bool.not_eq_true'] at h
  exact of_sqrtLtB_eq_false (h.2 c hc)

theorem separated_symm {padding : ℚ} {a b : Circle} (h : Separated padding a b) :
    Separated padding b a := by
  unfold Separated at h ⊢
  rw [show b.radius + a.radius + padding = a.radius + b.radius + padding from by ring,
    show (b.x - a.x) ^ 2 + (b.y - a.y) ^ 2 = (a.x - b.x) ^ 2 + (a.y - b.y) ^ 2 from by ring]
  exact h

theorem anneal_circles (minRadius : ℚ) (s : PackState) :
    (anneal minRadius s).circles = s.circles := by
  unfold anneal
  split <;> rfl

theorem placeAttempt_pairwise {cons : Constraints} {copts : ColorOptions}
    {mask : ℤ → ℤ → Bool} {minR : ℚ} {p : Proposal} {s : PackState}
    (hs : s.circles.Pairwise (Separated cons.padding)) :
    (placeAttempt cons copts mask minR p s).circles.Pairwise (Separated cons.padding) := by
  unfold placeAttempt
  by_cases hv : isValidPlacement p.x p.y (minR + p.r * (s.currentMaxRadius - minR))
      s.circles cons = true
  · rw [if_pos hv]
    cases hdc : determineCircleColor p.x p.y (minR + p.r * (s.currentMaxRadius - minR))
        mask copts with
    | none => exact hs
    | some color =>
        simp only [List.pairwise_append, List.pairwise_singleton, List.mem_singleton,
          true_and]
        refine ⟨hs, ?_⟩
        intro a ha b hb
        subst hb
        exact separated_symm (isValidPlacement_overlap hv a ha)
  · rw [if_neg hv]
    exact hs

theorem placeAttempt_inBounds {cons : Constraints} {copts : ColorOptions}
    {mask : ℤ → ℤ → Bool} {minR : ℚ} {p : Proposal} {s : PackState}
    (hs : ∀ c ∈ s.circles, InBoundsQ cons c) :
    ∀ c ∈ (placeAttempt cons copts mask minR p s).circles, InBoundsQ cons c := by
  unfold placeAttempt
  by_cases hv : isValidPlacement p.x p.y (minR + p.r * (s.currentMaxRadius - minR))
      s.circles cons = true
  · rw [if_pos hv]
    cases hdc : determineCircleColor p.x p.y (minR + p.r * (s.currentMaxRadius - minR))
        mask copts with
    | none => exact hs
    | some color =>
        intro c hc
        simp only [List.mem_append, List.mem_singleton] at hc
        rcases hc with hc | hc
        · exact hs c hc
        · subst hc
          have hb := isValidPlacement_bounds hv
          refine ⟨hb.1, hb.2.1, hb.2.2.1, hb.2.2.2, ?_⟩
          intro hcirc
          exact isValidPlacement_circular hv hcirc
  · rw [if_neg hv]
    exact hs

theorem runPack_pairwise (cons : Constraints) (copts : ColorOptions)
    (mask : ℤ → ℤ → Bool) (minR : ℚ) (maxAtt : ℕ) :
    ∀ (ps : List Proposal) (s : PackState),
      s.circles.Pairwise (Separated cons.padding) →
      (runPack cons copts mask minR maxAtt ps s).circles.Pairwise (Separated cons.padding) := by
  intro ps
  induction ps with
  | nil => intro s hs; exact hs
  | cons p ps ih =>
      intro s hs
      unfold runPack
      by_cases h : s.attempts < maxAtt
      · rw [if_pos h]
        apply ih
        show (packStep cons copts mask minR p s).circles.Pairwise (Separated cons.padding)
        unfold packStep
        rw [anneal_circles]
        exact placeAttempt_pairwise hs
      · rw [if_neg h]
        exact hs

theorem runPack_inBounds (cons : Constraints) (copts : ColorOptions)
    (mask : ℤ → ℤ → Bool) (minR : ℚ) (maxAtt : ℕ) :
    ∀ (ps : List Proposal) (s : PackState),
      (∀ c ∈ s.circles, InBoundsQ cons c) →
      ∀ c ∈ (runPack cons copts mask minR maxAtt ps s).circles, InBoundsQ cons c := by
  intro ps
  induction ps with
  | nil => intro s hs; exact hs
  | cons p ps ih =>
      intro s hs
      unfold runPack
      by_cases h : s.attempts < maxAtt
      · rw [if_pos h]
        apply ih
        show ∀ c ∈ (packStep cons copts mask minR p s).circles, InBoundsQ cons c
        unfold packStep
        rw [anneal_circles]
        exact placeAttempt_inBounds hs
      · rw [if_neg h]
        exact hs

theorem separated_real {padding : ℚ} {a b : Circle} (h : Separated padding a b) :
    ((a.radius : ℝ) + b.radius + padding) ≤
      Real.sqrt (((a.x : ℝ) - b.x) ^ 2 + ((a.y : ℝ) - b.y) ^ 2) := by
  rcases h with h | h
  · calc ((a.radius : ℝ) + b.radius + padding) ≤ 0 := by exact_mod_cast h
    _ ≤ Real.sqrt (((a.x : ℝ) - b.x) ^ 2 + ((a.y : ℝ) - b.y) ^ 2) := Real.sqrt_nonneg _
  · apply Real.le_sqrt_of_sq_le
    have : (((a.radius + b.radius + padding : ℚ) : ℝ)) ^ 2 ≤
        (((a.x - b.x : ℚ) : ℝ)) ^ 2 + (((a.y - b.y : ℚ) : ℝ)) ^ 2 := by
      exact_mod_cast h
    push_cast at this
    convert this using 2

/-- C1.  Non-overlap invariant: in every finished CircleSet returned by the
packing engine, every pair of distinct circles `a, b` satisfies
`distance(a, b) ≥ a.radius + b.radius + padding`, with `padding` the
constraint value of the run. -/
theorem c1_nonoverlap_invariant (cons : Constraints) (copts : ColorOptions)
    (mask : ℤ → ℤ → Bool) (minR maxR : ℚ) (maxAtt : ℕ) (ps : List Proposal)
    (_hdone : ¬ (packResult cons copts mask minR maxR maxAtt ps).attempts < maxAtt) :
    (packResult cons copts mask minR maxR maxAtt ps).circles.Pairwise
      (fun a b => ((a.radius : ℝ) + b.radius + cons.padding) ≤
        Real.sqrt (((a.x : ℝ) - b.x) ^ 2 + ((a.y : ℝ) - b.y) ^ 2)) := by
  have h := runPack_pairwise cons copts mask minR maxAtt ps (initState maxR)
    (by simp [initState])
  exact h.imp separated_real

theorem c1_nonoverlap_invariant_witness :
    ¬ wRun.attempts < 1 ∧
      wRun.circles.Pairwise
        (fun a b => ((a.radius : ℝ) + b.radius + wConstraints.padding) ≤
          Real.sqrt (((a.x : ℝ) - b.x) ^ 2 + ((a.y : ℝ) - b.y) ^ 2)) := by
  constructor
  · set_option maxRecDepth 100000 in with_unfolding_all decide
  · exact c1_nonoverlap_invariant wConstraints wColorOptions allFalseMask 8 8 1 wProposals
      (by set_option maxRecDepth 100000 in with_unfolding_all decide)

/-- C3.  Bounds invariant: every circle of a finished CircleSet lies inside
the margin-adjusted canvas (`x - radius ≥ margin`, `x + radius ≤ width -
margin`, same for `y`), and in circular mode additionally
`distanceFromCenter + radius ≤ min(width, height)/2 - margin`. -/
theorem c3_bounds_invariant (cons : Constraints) (copts : ColorOptions)
    (mask : ℤ → ℤ → Bool) (minR maxR : ℚ) (maxAtt : ℕ) (ps : List Proposal)
    (_hdone : ¬ (packResult cons copts mask minR maxR maxAtt ps).attempts < maxAtt) :
    ∀ c ∈ (packResult cons copts mask minR maxR maxAtt ps).circles,
      cons.margin ≤ c.x - c.radius ∧ c.x + c.radius ≤ cons.width - cons.margin ∧
        cons.margin ≤ c.y - c.radius ∧ c.y + c.radius ≤ cons.height - cons.margin ∧
        (cons.circular = true →
          Real.sqrt (((c.x : ℝ) - cons.centerX) ^ 2 + ((c.y : ℝ) - cons.centerY) ^ 2) +
              c.radius ≤
            ((min cons.width cons.height / 2 - cons.margin : ℚ) : ℝ)) := by
  intro c hc
  have h := runPack_inBounds cons copts mask minR maxAtt ps (initState maxR)
    (by simp [initState]) c hc
  obtain ⟨h1, h2, h3, h4, h5⟩ := h
  refine ⟨h1, h2, h3, h4, ?_⟩
  intro hcirc
  obtain ⟨ht, hd⟩ := h5 hcirc
  have hsqrt : Real.sqrt (((c.x : ℝ) - cons.centerX) ^ 2 + ((c.y : ℝ) - cons.centerY) ^ 2) ≤
      ((min cons.width cons.height / 2 - cons.margin - c.radius : ℚ) : ℝ) := by
    rw [show (((c.x : ℝ) - cons.centerX) ^ 2 + ((c.y : ℝ) - cons.centerY) ^ 2) =
        (((c.x - cons.centerX : ℚ) : ℝ)) ^ 2 + (((c.y - cons.centerY : ℚ) : ℝ)) ^ 2 from by
      push_cast; ring]
    rw [show ((min cons.width cons.height / 2 - cons.margin - c.radius : ℚ) : ℝ) =
        Real.sqrt ((((min cons.width cons.height / 2 - cons.margin - c.radius : ℚ) : ℝ)) ^ 2)
      from (Real.sqrt_sq (by exact_mod_cast ht)).symm]
    apply Real.sqrt_le_sqrt
    exact_mod_cast hd
  have hcast : ((min cons.width cons.height / 2 - cons.margin - c.radius : ℚ) : ℝ) =
      ((min cons.width cons.height / 2 - cons.margin : ℚ) : ℝ) - (c.radius : ℝ) := by
    push_cast
    ring
  linarith [hsqrt, hcast.le]

theorem c3_bounds_invariant_witness :
    (¬ wCircRun.attempts < 1 ∧ wCircRun.circles.length = 1) ∧
      ∀ c ∈ wCircRun.circles,
        wCircConstraints.margin ≤ c.x - c.radius ∧
          c.x + c.radius ≤ wCircConstraints.width - wCircConstraints.margin ∧
          wCircConstraints.margin ≤ c.y - c.radius ∧
          c.y + c.radius ≤ wCircConstraints.height - wCircConstraints.margin ∧
          (wCircConstraints.circular = true →
            Real.sqrt (((c.x : ℝ) - wCircConstraints.centerX) ^ 2 +
                ((c.y : ℝ) - wCircConstraints.centerY) ^ 2) + c.radius ≤
              ((min wCircConstraints.width wCircConstraints.height / 2 -
                wCircConstraints.margin : ℚ) : ℝ)) := by
  constructor
  · set_option maxRecDepth 100000 in with_unfolding_all decide
  · exact c3_bounds_invariant wCircConstraints wColorOptions allFalseMask 8 8 1
      wCircProposals (by set_option maxRecDepth 100000 in with_unfolding_all decide)

/-- C2 counterexample: with `maxAttempts = 1`, the concrete finished run
`wRun` (one successful placement resetting the counter, then more
iterations) executes 3 loop iterations, not `maxAttempts = 1`, refuting
"pack performs exactly maxAttempts loop iterations in total". -/
theorem c2_counterexample :
    ¬ wRun.attempts < 1 ∧ wRun.iterations = 3 ∧ wRun.iterations ≠ 1 := by
  set_option maxRecDepth 100000 in with_unfolding_all decide

/-- C2 amended: the loop counter counts *consecutive failures*: each
iteration either resets it to `0` or increments it by one, a successful
placement always resets it to `0` (as does an annealing step), and the loop
terminates exactly when this consecutive-failure counter reaches
`maxAttempts` — so the total number of iterations may differ from
`maxAttempts`. -/
theorem c2_consecutive_failure_budget (cons : Constraints) (copts : ColorOptions)
    (mask : ℤ → ℤ → Bool) (minR : ℚ) (maxAtt : ℕ) (p : Proposal)
    (ps : List Proposal) (s : PackState) :
    ((packStep cons copts mask minR p s).attempts = 0 ∨
        (packStep cons copts mask minR p s).attempts = s.attempts + 1) ∧
      (isValidPlacement p.x p.y (minR + p.r * (s.currentMaxRadius - minR)) s.circles cons =
            true →
        (determineCircleColor p.x p.y (minR + p.r * (s.currentMaxRadius - minR)) mask
              copts).isSome = true →
        (packStep cons copts mask minR p s).attempts = 0) ∧
      (s.attempts ≤ maxAtt →
        (runPack cons copts mask minR maxAtt ps s).attempts ≤ maxAtt) ∧
      (s.attempts ≤ maxAtt →
        ¬ (runPack cons copts mask minR maxAtt ps s).attempts < maxAtt →
        (runPack cons copts mask minR maxAtt ps s).attempts = maxAtt) := by
  have hstep : ∀ (q : Proposal) (t : PackState),
      (packStep cons copts mask minR q t).attempts = 0 ∨
        (packStep cons copts mask minR q t).attempts = t.attempts + 1 := by
    intro q t
    unfold packStep anneal placeAttempt
    by_cases hv : isValidPlacement q.x q.y (minR + q.r * (t.currentMaxRadius - minR))
        t.circles cons = true
    · rw [if_pos hv]
      cases hdc : determineCircleColor q.x q.y (minR + q.r * (t.currentMaxRadius - minR))
          mask copts with
      | none => split <;> simp
      | some color => split <;> simp
    · rw [if_neg hv]
      split <;> simp
  have hbudget : ∀ (qs : List Proposal) (t : PackState), t.attempts ≤ maxAtt →
      (runPack cons copts mask minR maxAtt qs t).attempts ≤ maxAtt := by
    intro qs
    induction qs with
    | nil => intro t ht; exact ht
    | cons q qs ih =>
        intro t ht
        unfold runPack
        by_cases h : t.attempts < maxAtt
        · rw [if_pos h]
          apply ih
          show (packStep cons copts mask minR q t).attempts ≤ maxAtt
          rcases hstep q t with h0 | h0
          · omega
          · omega
        · rw [if_neg h]
          exact ht
  refine ⟨hstep p s, ?_, hbudget ps s, ?_⟩
  · intro hv hc
    unfold packStep anneal placeAttempt
    rw [if_pos hv]
    rw [Option.isSome_iff_exists] at hc
    obtain ⟨color, hc⟩ := hc
    rw [hc]
    simp
  · intro ht hdone
    have := hbudget ps s ht
    omega

theorem c2_consecutive_failure_budget_witness :
    (initState 8).attempts ≤ 1 ∧
      (runPack wConstraints wColorOptions allFalseMask 8 1 wProposals
        (initState 8)).attempts = 1 := by
  refine ⟨by simp [initState], ?_⟩
  exact (c2_consecutive_failure_budget wConstraints wColorOptions allFalseMask 8 1
      ⟨30, 30, 0⟩ wProposals (initState 8)).2.2.2 (by simp [initState])
    (by set_option maxRecDepth 100000 in with_unfolding_all decide)

theorem foldl_fst_const {f : ℕ × ℕ → ℚ → ℕ × ℕ} (hf : ∀ acc d, (f acc d).1 = acc.1)
    (l : List ℚ) : ∀ acc : ℕ × ℕ, (l.foldl f acc).1 = acc.1 := by
  induction l with
  | nil => intro acc; rfl
  | cons d l ih =>
      intro acc
      rw [List.foldl_cons, ih, hf]

theorem foldl_fst_eq_snd {f : ℕ × ℕ → ℚ → ℕ × ℕ}
    (hf : ∀ acc d, acc.1 = acc.2 → (f acc d).1 = (f acc d).2) (l : List ℚ) :
    ∀ acc : ℕ × ℕ, acc.1 = acc.2 → (l.foldl f acc).1 = (l.foldl f acc).2 := by
  induction l with
  | nil => intro acc h; exact h
  | cons d l ih =>
      intro acc h
      rw [List.foldl_cons]
      exact ih _ (hf acc d h)

theorem countSamples_inPixels_zero {mask : ℤ → ℤ → Bool}
    (hmask : ∀ py px, mask py px = false) (x y radius : ℚ) (mapW mapH : ℕ) :
    (countSamples x y radius mask mapW mapH).1 = 0 := by
  unfold countSamples
  apply foldl_fst_const
  intro acc dy
  apply foldl_fst_const
  intro acc2 dx
  dsimp only
  split
  · split
    · rw [hmask]
      simp
    · rfl
  · rfl

theorem countSamples_inPixels_total {mask : ℤ → ℤ → Bool}
    (hmask : ∀ py px, mask py px = true) (x y radius : ℚ) (mapW mapH : ℕ) :
    (countSamples x y radius mask mapW mapH).1 =
      (countSamples x y radius mask mapW mapH).2 := by
  unfold countSamples
  apply foldl_fst_eq_snd _ _ _ rfl
  intro acc dy hacc
  apply foldl_fst_eq_snd _ _ _ hacc
  intro acc2 dx h2
  dsimp only
  split
  · split
    · rw [hmask, h2]
      simp
    · exact h2
  · exact h2

/-- C4.  Region-classifier contract: `determineCircleColor` rejects iff
either no grid sample was counted (`totalPixels = 0`) or the in-foreground
ratio lies strictly inside the tolerance band; otherwise it returns
`onColor` when the ratio exceeds `0.5` and `offColor` otherwise — so on an
all-`false` mask every accepted circle gets `offColor` and on an all-`true`
mask every accepted circle gets `onColor`. -/
theorem c4_region_classifier_contract (x y radius : ℚ) (mask : ℤ → ℤ → Bool)
    (opts : ColorOptions) (_hr : 0 < radius) :
    (determineCircleColor x y radius mask opts = none ↔
        ((countSamples x y radius mask opts.mapWidth opts.mapHeight).2 = 0 ∨
          (opts.tolerance <
              ((countSamples x y radius mask opts.mapWidth opts.mapHeight).1 : ℚ) /
                ((countSamples x y radius mask opts.mapWidth opts.mapHeight).2 : ℚ) ∧
            ((countSamples x y radius mask opts.mapWidth opts.mapHeight).1 : ℚ) /
                ((countSamples x y radius mask opts.mapWidth opts.mapHeight).2 : ℚ) <
              1 - opts.tolerance))) ∧
      (determineCircleColor x y radius mask opts ≠ none →
        determineCircleColor x y radius mask opts =
          some
            (if ((countSamples x y radius mask opts.mapWidth opts.mapHeight).1 : ℚ) /
                  ((countSamples x y radius mask opts.mapWidth opts.mapHeight).2 : ℚ) >
                1/2
              then opts.onColor else opts.offColor)) ∧
      ((∀ py px, mask py px = false) → determineCircleColor x y radius mask opts ≠ none →
        determineCircleColor x y radius mask opts = some opts.offColor) ∧
      ((∀ py px, mask py px = true) → determineCircleColor x y radius mask opts ≠ none →
        determineCircleColor x y radius mask opts = some opts.onColor) := by
  unfold determineCircleColor
  by_cases h0 : (countSamples x y radius mask opts.mapWidth opts.mapHeight).2 = 0
  · simp [h0]
  · rw [if_neg h0]
    by_cases hband : opts.tolerance <
        ((countSamples x y radius mask opts.mapWidth opts.mapHeight).1 : ℚ) /
          ((countSamples x y radius mask opts.mapWidth opts.mapHeight).2 : ℚ) ∧
        ((countSamples x y radius mask opts.mapWidth opts.mapHeight).1 : ℚ) /
            ((countSamples x y radius mask opts.mapWidth opts.mapHeight).2 : ℚ) <
          1 - opts.tolerance
    · simp only [if_pos hband]
      simp [h0, hband]
    · simp only [if_neg hband]
      refine ⟨?_, ?_, ?_, ?_⟩
      · simp [h0, hband]
      · intro _
        trivial
      · intro hmask _
        have h1 := countSamples_inPixels_zero hmask x y radius opts.mapWidth opts.mapHeight
        rw [h1]
        norm_num
      · intro hmask _
        have h1 := countSamples_inPixels_total hmask x y radius opts.mapWidth opts.mapHeight
        rw [h1, div_self (by exact_mod_cast h0)]
        norm_num

theorem c4_region_classifier_contract_witness :
    (0 : ℚ) < 8 ∧
      determineCircleColor 50 50 8 allFalseMask wColorOptions =
        some wColorOptions.offColor := by
  refine ⟨by norm_num, ?_⟩
  exact (c4_region_classifier_contract 50 50 8 allFalseMask wColorOptions
      (by norm_num)).2.2.1 (fun _ _ => rfl)
    (by set_option maxRecDepth 100000 in with_unfolding_all decide)

/-- C5 counterexample: at center `(8,8)`, radius `8`, mask `halfMask` and
tolerance `1/2` (empty rejection band) the sample ratio is exactly `1/2`,
and the classifier returns `offColor`, not `onColor` — the `> 0.5`
comparison is strict, so ratio `0.5` resolves to the "off" branch. -/
theorem c5_counterexample :
    ((countSamples 8 8 8 halfMask 17 16).1 : ℚ) /
        ((countSamples 8 8 8 halfMask 17 16).2 : ℚ) = 1/2 ∧
      halfColorOptions.tolerance = 1/2 ∧
      determineCircleColor 8 8 8 halfMask halfColorOptions =
        some halfColorOptions.offColor ∧
      halfColorOptions.offColor ≠ halfColorOptions.onColor := by
  refine ⟨?_, rfl, ?_, by decide⟩
  · set_option maxRecDepth 100000 in with_unfolding_all decide
  · set_option maxRecDepth 100000 in with_unfolding_all decide

/-- C5 amended: when the sample ratio equals exactly `0.5` and the circle is
not rejected (`totalPixels ≠ 0` and the tolerance band does not cover
`0.5`), the classifier resolves to the *off* branch and returns `offColor`,
because the comparison `inRatio > 0.5` is strict. -/
theorem c5_half_ratio_takes_off_branch (x y radius : ℚ) (mask : ℤ → ℤ → Bool)
    (opts : ColorOptions)
    (h0 : (countSamples x y radius mask opts.mapWidth opts.mapHeight).2 ≠ 0)
    (hhalf : ((countSamples x y radius mask opts.mapWidth opts.mapHeight).1 : ℚ) /
        ((countSamples x y radius mask opts.mapWidth opts.mapHeight).2 : ℚ) = 1/2)
    (hband : ¬ (opts.tolerance < 1/2 ∧ (1 : ℚ)/2 < 1 - opts.tolerance)) :
    determineCircleColor x y radius mask opts = some opts.offColor := by
  unfold determineCircleColor
  rw [if_neg h0]
  rw [hhalf]
  rw [if_neg hband]
  norm_num

theorem c5_half_ratio_takes_off_branch_witness :
    (countSamples 8 8 8 halfMask 17 16).2 ≠ 0 ∧
      determineCircleColor 8 8 8 halfMask halfColorOptions = some "#4ECDC4" := by
  constructor
  · set_option maxRecDepth 100000 in with_unfolding_all decide
  · exact c5_half_ratio_takes_off_branch 8 8 8 halfMask halfColorOptions
      (by set_option maxRecDepth 100000 in with_unfolding_all decide)
      (by set_option maxRecDepth 100000 in with_unfolding_all decide)
      (by norm_num [halfColorOptions])

/-- C9.  Empty budget: with `maxAttempts = 0` the packing engine performs no
loop iteration and returns an empty CircleSet. -/
theorem c9_empty_budget (cons : Constraints) (copts : ColorOptions)
    (mask : ℤ → ℤ → Bool) (minR maxR : ℚ) (ps : List Proposal) :
    (packResult cons copts mask minR maxR 0 ps).circles = [] ∧
      (packResult cons copts mask minR maxR 0 ps).iterations = 0 := by
  cases ps with
  | nil => exact ⟨rfl, rfl⟩
  | cons p ps =>
      unfold packResult runPack
      rw [if_neg (by simp [initState])]
      exact ⟨rfl, rfl⟩

theorem getLuminance_eq_ref (r g b : ℕ) : getLuminance r g b = luminanceRefY r g b :=
  rfl

theorem getLuminance_black : getLuminance 0 0 0 = 0 := by
  unfold getLuminance sRGBtoLin
  norm_num

/-- C6.  Luminance reference definition: the mask entry produced by
`createLuminanceMap` equals `Y < threshold` where `Y` is the spec's
reference formula (sRGB linearization and BT.709 weights); in particular a
pixel with `Y` below the threshold (a dark pixel) is marked foreground. -/
theorem c6_luminance_reference (data : ℕ → ℕ) (width : ℕ) (threshold : ℝ)
    (y x : ℕ) :
    (luminanceMapVal data width threshold y x ↔
        luminanceRefY (data ((y * width + x) * 4)) (data ((y * width + x) * 4 + 1))
            (data ((y * width + x) * 4 + 2)) < threshold) ∧
      (luminanceRefY (data ((y * width + x) * 4)) (data ((y * width + x) * 4 + 1))
            (data ((y * width + x) * 4 + 2)) < threshold →
        luminanceMapVal data width threshold y x) := by
  unfold luminanceMapVal
  rw [getLuminance_eq_ref]
  exact ⟨Iff.rfl, id⟩

theorem c6_luminance_reference_witness : luminanceMapVal (fun _ => 0) 1 (1/2) 0 0 := by
  apply (c6_luminance_reference (fun _ => 0) 1 (1/2) 0 0).2
  have h : luminanceRefY 0 0 0 = 0 := by
    rw [← getLuminance_eq_ref]
    exact getLuminance_black
  rw [h]
  norm_num

/-- C7.  Monotone luminance classification: for a fixed pixel buffer, raising
the threshold from `t1` to `t2 ≥ t1` keeps every foreground pixel
foreground. -/
theorem c7_luminance_monotone (data : ℕ → ℕ) (width : ℕ) (t1 t2 : ℝ) (h : t1 ≤ t2)
    (y x : ℕ) (hfg : luminanceMapVal data width t1 y x) :
    luminanceMapVal data width t2 y x :=
  lt_of_lt_of_le hfg h

theorem c7_luminance_monotone_witness :
    (1/4 : ℝ) ≤ 3/4 ∧ luminanceMapVal (fun _ => 0) 1 (3/4) 0 0 := by
  refine ⟨by norm_num, ?_⟩
  refine c7_luminance_monotone (fun _ => 0) 1 (1/4) (3/4) (by norm_num) 0 0 ?_
  show getLuminance 0 0 0 < (1/4 : ℝ)
  rw [getLuminance_black]
  norm_num

theorem ceil_shrink_lt {size : ℚ} (h : 20 < size * (19/20)) :
    Nat.ceil (size * (19/20)) < Nat.ceil size := by
  have h0 : (0 : ℚ) ≤ size * (19/20) := le_of_lt (lt_trans (by norm_num) h)
  have h1 : ((Nat.ceil (size * (19/20)) : ℕ) : ℚ) < size * (19/20) + 1 :=
    Nat.ceil_lt_add_one h0
  have h2 : size * (19/20) + 1 ≤ size := by linarith
  exact Nat.lt_ceil.mpr (lt_of_lt_of_le h1 h2)

theorem calcFontSize_aux (measure : ℚ → ℚ × ℚ) (maxW maxH : ℚ) :
    ∀ (n : ℕ) (size : ℚ), Nat.ceil size ≤ n →
      ∃ k : ℕ,
        calculateOptimalFontSize measure maxW maxH size = size * (19/20) ^ k ∧
          (((measure (calculateOptimalFontSize measure maxW maxH size)).1 ≤ maxW ∧
              (measure (calculateOptimalFontSize measure maxW maxH size)).2 ≤ maxH) ∨
            calculateOptimalFontSize measure maxW maxH size ≤ 20) := by
  intro n
  induction n with
  | zero =>
      intro size hn
      have hs : size ≤ 0 := Nat.ceil_eq_zero.mp (Nat.le_zero.mp hn)
      by_cases hfit : (measure size).1 ≤ maxW ∧ (measure size).2 ≤ maxH
      · have hE : calculateOptimalFontSize measure maxW maxH size = size := by
          rw [calculateOptimalFontSize]
          rw [if_pos hfit]
        refine ⟨0, by rw [hE, pow_zero, mul_one], Or.inl ?_⟩
        rw [hE]
        exact hfit
      · have h20 : ¬ 20 < size * (19/20) := by
          intro h
          linarith [mul_nonpos_of_nonpos_of_nonneg hs (by norm_num : (0:ℚ) ≤ 19/20)]
        have hE : calculateOptimalFontSize measure maxW maxH size = size * (19/20) := by
          rw [calculateOptimalFontSize]
          rw [if_neg hfit, dif_neg h20]
        refine ⟨1, by rw [hE, pow_one], Or.inr ?_⟩
        rw [hE]
        exact not_lt.mp h20
  | succ n ih =>
      intro size hn
      by_cases hfit : (measure size).1 ≤ maxW ∧ (measure size).2 ≤ maxH
      · have hE : calculateOptimalFontSize measure maxW maxH size = size := by
          rw [calculateOptimalFontSize]
          rw [if_pos hfit]
        refine ⟨0, by rw [hE, pow_zero, mul_one], Or.inl ?_⟩
        rw [hE]
        exact hfit
      · by_cases h20 : 20 < size * (19/20)
        · have hE : calculateOptimalFontSize measure maxW maxH size =
              calculateOptimalFontSize measure maxW maxH (size * (19/20)) := by
            rw [calculateOptimalFontSize]
            rw [if_neg hfit, dif_pos h20]
          have hle : Nat.ceil (size * (19/20)) ≤ n := by
            have := ceil_shrink_lt h20
            omega
          obtain ⟨k, hk1, hk2⟩ := ih (size * (19/20)) hle
          refine ⟨k + 1, ?_, ?_⟩
          · rw [hE, hk1, pow_succ]
            ring
          · rw [hE]
            exact hk2
        · have hE : calculateOptimalFontSize measure maxW maxH size = size * (19/20) := by
            rw [calculateOptimalFontSize]
            rw [if_neg hfit, dif_neg h20]
          refine ⟨1, by rw [hE, pow_one], Or.inr ?_⟩
          rw [hE]
          exact not_lt.mp h20

/-- C8.  Text-fitter shrink loop: for every measurement oracle, constraint
box and initial size, `calculateOptimalFontSize` returns
`initialFontSize · 0.95^k` for some `k ≥ 0`, and the returned size either
fits the measured constraints or has dropped to the floor of `20` (or
below, for the last tried size) — a best-effort fit with no failure
signaled. -/
theorem c8_fontsize_shrink (measure : ℚ → ℚ × ℚ)
    (maxWidth maxHeight initialFontSize : ℚ) :
    ∃ k : ℕ,
      calculateOptimalFontSize measure maxWidth maxHeight initialFontSize =
          initialFontSize * (19/20) ^ k ∧
        (((measure (calculateOptimalFontSize measure maxWidth maxHeight
                initialFontSize)).1 ≤ maxWidth ∧
            (measure (calculateOptimalFontSize measure maxWidth maxHeight
                initialFontSize)).2 ≤ maxHeight) ∨
          calculateOptimalFontSize measure maxWidth maxHeight initialFontSize ≤ 20) :=
  calcFontSize_aux measure maxWidth maxHeight (Nat.ceil initialFontSize)
    initialFontSize le_rfl

/-- C10.  The claim ("on a catalog miss neither onColor nor offColor is
modified") is the documented intent, but the code violates it: evaluated at
the failing input `palette = "Constructor"`, the lowercase key
`"constructor"` is not a catalog key (the repo's own `isValidPalette`,
which uses `hasOwnProperty`, agrees), yet the bracket lookup hits the
inherited `Object.prototype.constructor` — a truthy non-palette, despite
`getPalette`'s documented contract "Palette object or null if not found" —
so construction overwrites both `onColor` and `offColor` with `undefined`.
For ordinary unknown names and for catalog hits (case-insensitively) the
constructor behaves as claimed. -/
theorem c10_prototype_chain_bug :
    COLOR_PALETTES.lookup ("Constructor".toLower) = none ∧
      isValidPalette "Constructor" = false ∧
      getPalette "Constructor" = JsLookupResult.protoMember ∧
      applyPalette { DEFAULT_OPTIONS with palette := some "Constructor" } =
        ((none : Option String), (none : Option String)) ∧
      ((none : Option String), (none : Option String)) ≠
        (some DEFAULT_OPTIONS.onColor, some DEFAULT_OPTIONS.offColor) ∧
      applyPalette { DEFAULT_OPTIONS with palette := some "no-such-palette" } =
        (some DEFAULT_OPTIONS.onColor, some DEFAULT_OPTIONS.offColor) ∧
      applyPalette { DEFAULT_OPTIONS with palette := some "PROTANOPIA" } =
        (some "#8B0000", some "#90EE90") := by
  refine ⟨?_, ?_, ?_, ?_, ?_, ?_, ?_⟩ <;> with_unfolding_all decide

end ColorVision
